import Mathlib

/-!
Shallow embedding of src/prebidCurrencyRatesFileAlerter.js, the single source
file of the currency-file-generator alerter. The module fetches a currency
rates file from object storage, decides staleness of its dataAsOf timestamp,
and emails an alert when the file is stale or the fetch failed.

Modelling conventions:
- JavaScript numbers produced by parseFloat are modelled exactly as rationals
  together with NaN and the two infinities (the inputs exercised here are
  exactly representable, so no double rounding arises).
- Environment variables are an explicit record of optional strings.
- Host builtins that are not part of the repository are passed as parameters:
  the outcome of JSON.parse on the fetched body is an input of type
  Option JsonVal (none models a parse exception), and the millisecond values
  of new Date(dataAsOf) and new Date() are integer parameters.
- Side effects (console logging, the S3 getObject call, the SES sendEmail
  call, context.done, an uncaught thrown exception) are recorded as an event
  trace, in program order. A log event records that spec.log was called; the
  actual console output of spec.log is additionally gated on the DEBUG flag
  in the source, which no claim depends on.
-/

/-- Numeric domain of the JavaScript number results used by the module:
NaN, the infinities, and finite values modelled as exact rationals. -/
inductive JSNumber where
  | nan
  | posInf
  | negInf
  | finite (q : ℚ)
deriving DecidableEq

/-- JavaScript truthiness of a number: NaN and zero are falsy. -/
def JSNumber.truthy : JSNumber → Bool
  | .nan => false
  | .posInf => true
  | .negInf => true
  | .finite q => !(q == 0)

/-- Dynamic values flowing through the email-parameter code: undefined,
strings, numbers and arrays. -/
inductive JSVal where
  | undef
  | str (s : String)
  | num (n : JSNumber)
  | arr (elems : List JSVal)

/-- JavaScript truthiness of a value: undefined, the empty string, zero and
NaN are falsy; every array is truthy. -/
def JSVal.truthy : JSVal → Bool
  | .undef => false
  | .str s => !s.isEmpty
  | .num n => n.truthy
  | .arr _ => true

/-- JavaScript whitespace accepted at the front of a parseFloat input,
restricted to the ASCII forms (the inputs used here contain no exotic
Unicode spaces). -/
def jsWhitespace (c : Char) : Bool :=
  c = ' ' || c = '\t' || c = '\n' || c = '\r' || c = '\x0b' || c = '\x0c'

/-- Value of a digit character. -/
def digitVal (c : Char) : ℕ := c.toNat - 48

/-- Value of a run of decimal digit characters. -/
def digitsToNat (ds : List Char) : ℕ :=
  ds.foldl (fun a c => 10 * a + digitVal c) 0

/-- The JavaScript parseFloat builtin, used by getStaleOlderThanDays and
getAlertSubject: skip leading whitespace, an optional sign, then the longest
decimal-literal prefix (Infinity, digits with optional fraction, or a bare
fraction, each with an optional exponent); NaN when no such prefix exists. -/
def parseFloat (s : String) : JSNumber :=
  let cs0 := s.toList.dropWhile jsWhitespace
  let signed : Bool × List Char :=
    match cs0 with
    | '-' :: r => (true, r)
    | '+' :: r => (false, r)
    | _ => (false, cs0)
  let neg := signed.1
  let cs := signed.2
  if "Infinity".toList.isPrefixOf cs then
    if neg then JSNumber.negInf else JSNumber.posInf
  else
    let ipSplit := cs.span (fun c => c.isDigit)
    let ip := ipSplit.1
    let fpSplit : List Char × List Char :=
      match ipSplit.2 with
      | '.' :: t => t.span (fun c => c.isDigit)
      | r => ([], r)
    let fp := fpSplit.1
    if ip.isEmpty && fp.isEmpty then JSNumber.nan
    else
      let e : ℤ :=
        match fpSplit.2 with
        | c :: t =>
          if c = 'e' || c = 'E' then
            let esplit : ℤ × List Char :=
              match t with
              | '-' :: u => (-1, u)
              | '+' :: u => (1, u)
              | _ => (1, t)
            let eds := esplit.2.takeWhile (fun d => d.isDigit)
            if eds.isEmpty then 0 else esplit.1 * (digitsToNat eds : ℤ)
          else 0
        | [] => 0
      let mantNum : ℕ := digitsToNat ip * 10 ^ fp.length + digitsToNat fp
      let v : ℚ :=
        if 0 ≤ e then mkRat (mantNum * 10 ^ e.toNat) (10 ^ fp.length)
        else mkRat mantNum (10 ^ fp.length * 10 ^ (-e).toNat)
      JSNumber.finite (if neg then -v else v)

/-- Process environment of the module: the seven variables it reads, each
possibly unset. -/
structure Env where
  DEBUG : Option String
  S3_BUCKET : Option String
  S3_FILENAME : Option String
  ALERT_FROM : Option String
  ALERT_TO : Option String
  STALE_OLDER_THAN_DAYS : Option String
  ALERT_SUBJECT : Option String

/-- Environment with no variable set. -/
def defaultEnv : Env := ⟨none, none, none, none, none, none, none⟩

/-- The JavaScript or-else idiom v or default used by the string getters:
undefined and the empty string fall back to the default. -/
def jsOrStr (v : Option String) (d : String) : String :=
  match v with
  | some s => if s.isEmpty then d else s
  | none => d

/-- Embeds spec.getDebug: DEBUG compared to the string 1 when set, true
otherwise. -/
def getDebug (env : Env) : Bool :=
  match env.DEBUG with
  | some s => s == "1"
  | none => true

/-- Embeds spec.getBucket. -/
def getBucket (env : Env) : String :=
  jsOrStr env.S3_BUCKET "currency.prebid.org"

/-- Embeds spec.getFilename. -/
def getFilename (env : Env) : String :=
  jsOrStr env.S3_FILENAME "latest.json"

/-- Embeds spec.getAlertFrom. -/
def getAlertFrom (env : Env) : String :=
  jsOrStr env.ALERT_FROM "alerts@prebid.org"

/-- Embeds spec.getAlertTo. -/
def getAlertTo (env : Env) : String :=
  jsOrStr env.ALERT_TO "alerts@prebid.org"

/-- Embeds spec.getStaleOlderThanDays: parseFloat of the variable, or 2 when
that is falsy; parseFloat of an unset variable sees the string undefined. -/
def getStaleOlderThanDays (env : Env) : JSNumber :=
  let n := parseFloat (env.STALE_OLDER_THAN_DAYS.getD "undefined")
  if n.truthy then n else JSNumber.finite 2

/-- Embeds spec.getAlertSubject exactly as written in the source: it applies
parseFloat to ALERT_SUBJECT and falls back to the fixed default subject
string when the parse result is falsy, so the value is a number when the
variable has a numeric prefix and the default string otherwise. -/
def getAlertSubject (env : Env) : JSVal :=
  let n := parseFloat (env.ALERT_SUBJECT.getD "undefined")
  if n.truthy then JSVal.num n else JSVal.str "ALERT: Prebid Currency Rates File Monitor"

/-- Result record built by spec.createResult. -/
structure Result where
  message : String
deriving DecidableEq

/-- Embeds spec.createResult. -/
def createResult (message : String) : Result :=
  { message := message }

/-- Request descriptor built by spec.createS3GetObjectParams. -/
structure S3Params where
  Bucket : String
  Key : String
deriving DecidableEq

/-- Content part of the SES request: a data value with a charset. -/
structure SesContent where
  Data : JSVal
  Charset : String

/-- Destination part of the SES request. As in the source, ToAddresses is
assigned config.alertTo itself, whatever value that is. -/
structure SesDestination where
  ToAddresses : JSVal

/-- Body part of the SES request. -/
structure SesBody where
  Text : SesContent

/-- Message part of the SES request. -/
structure SesMessage where
  Subject : SesContent
  Body : SesBody

/-- The SES sendEmail request built by spec.createSendEmailParams. -/
structure SendEmailParams where
  Destination : SesDestination
  Message : SesMessage
  Source : JSVal
  ReplyToAddresses : List JSVal

/-- Outcome of JSON.parse on the fetched body: a JSON value. -/
inductive JsonVal where
  | jnull
  | jbool (b : Bool)
  | jnum (q : ℚ)
  | jstr (s : String)
  | jarr (elems : List JsonVal)
  | jobj (fields : List (String × JsonVal))

/-- JavaScript truthiness of a parsed JSON value: null, false, zero and the
empty string are falsy; arrays and objects are truthy. -/
def JsonVal.truthy : JsonVal → Bool
  | .jnull => false
  | .jbool b => b
  | .jnum q => !(q == 0)
  | .jstr s => !s.isEmpty
  | .jarr _ => true
  | .jobj _ => true

/-- Error object delivered by a failing AWS call: its message and stack. -/
structure JsError where
  message : String
  stack : String
deriving DecidableEq

/-- Observable actions of one invocation, in program order. A log event
records a call of spec.log (whose console output is further gated on the
DEBUG flag); a logError event records a call of spec.logError with the text
of its first argument (the message for error objects); done records
context.done with its error argument and result; thrown records an uncaught
exception escaping the callback. -/
inductive Event where
  | log (line : String)
  | logError (line : String)
  | s3GetObject (params : S3Params)
  | sendEmail (params : SendEmailParams)
  | done (error : Option String) (result : Result)
  | thrown (msg : String)

/-- Recognizer for completion events. -/
def Event.isDone : Event → Bool
  | .done _ _ => true
  | _ => false

/-- Embeds spec.createS3GetObjectParams: undefined with an error log when
bucket or key is falsy, the request record otherwise. -/
def createS3GetObjectParams (bucket key : String) : Option S3Params × List Event :=
  if bucket.isEmpty || key.isEmpty then
    (none, [Event.logError "Error: missing argument for createS3GetObjectParams"])
  else
    (some { Bucket := bucket, Key := key }, [])

/-- Embeds spec.parseJson over the outcome of the JSON.parse builtin: a parse
exception (none) is logged and yields undefined; otherwise the parsed value
is returned unchanged. -/
def parseJson (outcome : Option JsonVal) : Option JsonVal × List Event :=
  match outcome with
  | none => (none, [Event.logError "Error: malformed json:"])
  | some v => (some v, [])

/-- Embeds spec.daysDifference: Math.round of the millisecond difference
divided by the milliseconds of one day. Math.round of a finite value is
floor of the value plus one half (ties go toward positive infinity). -/
def daysDifference (first second : ℤ) : ℤ :=
  Int.floor (((second : ℚ) - (first : ℚ)) / (1000 * 60 * 60 * 24) + 1 / 2)

/-- Staleness verdict built by spec.getFileStaleResult. -/
structure FileStaleResult where
  stale : Bool
  result : Option Result

/-- Embeds spec.getFileStaleResult. The dataAsOf argument appears both as the
string interpolated into the messages and as the millisecond value of the
host call new Date(dataAsOf); nowMs is the millisecond value of new Date().
The numeric threshold is an exact rational. -/
def getFileStaleResult (dataAsOf : String) (dataAsOfMs nowMs : ℤ)
    (staleOlderThanDays : ℚ) : FileStaleResult :=
  let daysSinceCurrencyFile := daysDifference dataAsOfMs nowMs
  if (daysSinceCurrencyFile : ℚ) > staleOlderThanDays then
    { stale := true
      result := some (createResult ("The Prebid currency rates conversion data has a stale timestamp of "
        ++ dataAsOf ++ ". Please check the generator logs for failures: "
        ++ "https://console.aws.amazon.com/cloudwatch/home?region=us-east-1#logStream:group=/aws/lambda/prebidCurrencyRatesFileGenerator;streamFilter=typeLogStreamPrefix")) }
  else
    { stale := false
      result := some (createResult ("The Prebid currency rates conversion data has a timestamp of "
        ++ dataAsOf ++ ", found not to be stale.")) }

/-- Configuration record passed to spec.createSendEmailParams. -/
structure EmailConfig where
  alertTo : JSVal
  alertSubject : JSVal
  alertFrom : JSVal
  alertReplyTo : JSVal
  message : JSVal

/-- Dynamic property lookup config of the required-property names, as the
source does with config subscripted by each name; other names read as
undefined. -/
def configProp (config : EmailConfig) : String → JSVal
  | "alertTo" => config.alertTo
  | "alertSubject" => config.alertSubject
  | "alertFrom" => config.alertFrom
  | "alertReplyTo" => config.alertReplyTo
  | "message" => config.message
  | _ => JSVal.undef

/-- The required-property list iterated by spec.createSendEmailParams. -/
def requiredEmailProps : List String :=
  ["alertTo", "alertSubject", "alertFrom", "alertReplyTo", "message"]

/-- The every-callback loop of spec.createSendEmailParams: stop at the first
falsy property, logging exactly that property name. -/
def checkRequiredProps (config : EmailConfig) : List String → Bool × List Event
  | [] => (true, [])
  | p :: ps =>
    if (configProp config p).truthy then checkRequiredProps config ps
    else (false, [Event.logError ("Error: missing required argument for createSendEmailParams:" ++ p)])

/-- Embeds spec.createSendEmailParams: undefined when a required property is
falsy, otherwise the SES request with the subject and body texts carrying
charset UTF-8, ToAddresses assigned the alertTo value itself and
ReplyToAddresses an array holding the alertReplyTo value. -/
def createSendEmailParams (config : EmailConfig) : Option SendEmailParams × List Event :=
  let checked := checkRequiredProps config requiredEmailProps
  if checked.1 then
    (some
      { Destination := { ToAddresses := config.alertTo }
        Message :=
          { Subject := { Data := config.alertSubject, Charset := "UTF-8" }
            Body := { Text := { Data := config.message, Charset := "UTF-8" } } }
        Source := config.alertFrom
        ReplyToAddresses := [config.alertReplyTo] }, checked.2)
  else
    (none, checked.2)

/-- Argument validation of spec.sendEmailHandler: it logs and returns
undefined when the result or the context is missing. The context, an opaque
host object, is modelled by its presence. -/
def sendEmailHandlerCheck (result : Option Result) (context : Bool) : Bool × List Event :=
  match result with
  | none => (false, [Event.logError "Error: missing \x22result\x22 argument for sendEmailHandler"])
  | some _ =>
    if context then (true, [])
    else (false, [Event.logError "Error: missing \x22context\x22 argument for sendEmailHandler"])

/-- Embeds the sendEmailCallback closure returned by spec.sendEmailHandler:
a send error is only logged, a success is logged as sent, and in both cases
context.done is called with null and the original result. -/
def sendEmailCallback (result : Result) (err : Option JsError) : List Event :=
  (match err with
   | some e => [Event.logError e.message]
   | none => [Event.log ("Alert \x27" ++ result.message ++ "\x27 sent. ")])
  ++ [Event.done none result]

/-- Embeds spec.sendAlert: build the config from the getters, build the SES
request, validate the handler arguments, and invoke ses.sendEmail. The
second component is the pending completion: the result that the send
callback will later pass to context.done, present exactly when a send was
dispatched. -/
def sendAlert (result : Option Result) (context : Bool) (env : Env) :
    List Event × Option Result :=
  match result with
  | none => ([Event.logError "Error: result argument is undefined for sendAlert"], none)
  | some r =>
    let config : EmailConfig :=
      { alertTo := JSVal.str (getAlertTo env)
        alertSubject := getAlertSubject env
        alertFrom := JSVal.str (getAlertFrom env)
        alertReplyTo := JSVal.str (getAlertFrom env)
        message := JSVal.str r.message }
    match createSendEmailParams config with
    | (none, ev) => (ev ++ [Event.logError "Error missing argument for sendAlert"], none)
    | (some params, ev) =>
      let handlerCheck := sendEmailHandlerCheck (some r) context
      if handlerCheck.1 then
        (ev ++ handlerCheck.2 ++ [Event.sendEmail params], some r)
      else
        (ev ++ handlerCheck.2 ++ [Event.logError "Error missing arguments for sendAlert"], none)

/-- Embeds spec.currencyRatesLoadSuccess. After a falsy parse outcome the
function returns silently. On a truthy parse outcome the source evaluates
the bare identifier getStaleOlderThanDays, which is not bound in the module
scope (the function exists only as a property of the spec object), so the
call raises an uncaught ReferenceError before the staleness branch is
reached; the trace records that thrown exception. -/
def currencyRatesLoadSuccess (parsed : Option JsonVal) (_context : Bool) (_env : Env) :
    List Event × Option Result :=
  let parsedPair := parseJson parsed
  match parsedPair.1 with
  | none => (parsedPair.2, none)
  | some currencyRates =>
    if currencyRates.truthy then
      (parsedPair.2 ++ [Event.thrown "ReferenceError: getStaleOlderThanDays is not defined"], none)
    else
      (parsedPair.2, none)

/-- Embeds spec.currencyRatesLoadError: log the error, build the result with
the fixed message and the error message appended, and hand it to sendAlert. -/
def currencyRatesLoadError (err : JsError) (context : Bool) (env : Env) :
    List Event × Option Result :=
  let result := createResult ("Error reading currency rates file from S3: " ++ err.message)
  let alerted := sendAlert (some result) context env
  (Event.logError err.message :: alerted.1, alerted.2)

/-- Outcome of the asynchronous S3 getObject call: either a body (given by
the outcome of JSON.parse on its text) or an error. -/
inductive FetchOutcome where
  | ok (parsedBody : Option JsonVal)
  | fail (err : JsError)

/-- One whole invocation: the handler logs the event, builds the request
parameters, validates the context in s3GetObjectHandler, issues the fetch,
and the s3GetObjectCallback dispatches on the fetch outcome; when an alert
was dispatched, the SES callback finally runs with the given send outcome.
The eventStr parameter is the JSON.stringify rendering of the Lambda event. -/
def invocationTrace (eventStr : String) (env : Env) (context : Bool)
    (fetch : FetchOutcome) (sendOutcome : Option JsError) : List Event :=
  let ev0 : List Event := [Event.log ("Event: " ++ eventStr)]
  match createS3GetObjectParams (getBucket env) (getFilename env) with
  | (none, ev) => ev0 ++ ev
  | (some params, ev) =>
    if context then
      let branch :=
        match fetch with
        | .ok parsed => currencyRatesLoadSuccess parsed context env
        | .fail e => currencyRatesLoadError e context env
      ev0 ++ ev ++ [Event.s3GetObject params] ++ branch.1 ++
        (match branch.2 with
         | some r => sendEmailCallback r sendOutcome
         | none => [])
    else
      ev0 ++ ev ++ [Event.logError "Error: invalid arguments for s3GetObjectHandler"]

/-- Rounding to the nearest integer with ties away from zero, the tie rule
the spec words prescribe for daysDifference; stated for comparison with the
Math.round behaviour of the source. -/
def roundHalfAwayFromZero (x : ℚ) : ℤ :=
  if 0 ≤ x then round x else -round (-x)

/-! Helper lemmas shared by the claim theorems. -/

/-- Appending cannot erase a nonempty front string. -/
lemma append_isEmpty_false (a b : String) (h : a.length ≠ 0) : (a ++ b).isEmpty = false := by
  rw [Bool.eq_false_iff]
  intro he
  have h2 : (a ++ b).length = 0 := by rw [(String.isEmpty_iff _).mp he]; rfl
  rw [String.length_append] at h2
  omega

/-- The floor-plus-half rounding of the millisecond quotient agrees with
integer floor division after clearing denominators. -/
lemma daysDifference_eq_ediv (a b : ℤ) :
    daysDifference a b = (2 * (b - a) + 86400000) / 172800000 := by
  unfold daysDifference
  have h1 : ((b : ℚ) - (a : ℚ)) / (1000 * 60 * 60 * 24) + 1 / 2
      = ((2 * (b - a) + 86400000 : ℤ) : ℚ) / ((172800000 : ℕ) : ℚ) := by
    push_cast
    ring
  rw [h1, Rat.floor_intCast_div_natCast]
  norm_num

/-- A string getter defaulted through the or idiom is always truthy when its
default is nonempty. -/
lemma jsOrStr_truthy (v : Option String) (d : String) (hd : d.isEmpty = false) :
    (JSVal.str (jsOrStr v d)).truthy = true := by
  cases v with
  | none => simp [jsOrStr, JSVal.truthy, hd]
  | some s => cases hs : s.isEmpty <;> simp [jsOrStr, JSVal.truthy, hs, hd]

/-- The alert recipient is truthy for every environment. -/
lemma getAlertTo_truthy (env : Env) : (JSVal.str (getAlertTo env)).truthy = true :=
  jsOrStr_truthy _ _ (by decide)

/-- The alert sender is truthy for every environment. -/
lemma getAlertFrom_truthy (env : Env) : (JSVal.str (getAlertFrom env)).truthy = true :=
  jsOrStr_truthy _ _ (by decide)

/-- The alert subject is truthy for every environment: either a truthy parsed
number or the nonempty default string. -/
lemma getAlertSubject_truthy (env : Env) : (getAlertSubject env).truthy = true := by
  unfold getAlertSubject
  cases h : (parseFloat (env.ALERT_SUBJECT.getD "undefined")).truthy with
  | true => simp [h, JSVal.truthy]
  | false =>
    simp only [h, Bool.false_eq_true, if_false, JSVal.truthy]
    decide

/-- When every required property is truthy, createSendEmailParams succeeds
without logging and returns the assembled request. -/
lemma createSendEmailParams_all_truthy (c : EmailConfig)
    (h1 : c.alertTo.truthy = true) (h2 : c.alertSubject.truthy = true)
    (h3 : c.alertFrom.truthy = true) (h4 : c.alertReplyTo.truthy = true)
    (h5 : c.message.truthy = true) :
    createSendEmailParams c =
      (some { Destination := { ToAddresses := c.alertTo }
              Message := { Subject := { Data := c.alertSubject, Charset := "UTF-8" }
                           Body := { Text := { Data := c.message, Charset := "UTF-8" } } }
              Source := c.alertFrom
              ReplyToAddresses := [c.alertReplyTo] }, []) := by
  simp [createSendEmailParams, checkRequiredProps, requiredEmailProps, configProp,
    h1, h2, h3, h4, h5]

/-- With a present context and a result whose message is nonempty, sendAlert
dispatches exactly one SES send built from the getters, and reports the
result as the pending completion payload. -/
lemma sendAlert_dispatch (r : Result) (env : Env) (hr : r.message.isEmpty = false) :
    sendAlert (some r) true env =
      ([Event.sendEmail
          { Destination := { ToAddresses := JSVal.str (getAlertTo env) }
            Message := { Subject := { Data := getAlertSubject env, Charset := "UTF-8" }
                         Body := { Text := { Data := JSVal.str r.message, Charset := "UTF-8" } } }
            Source := JSVal.str (getAlertFrom env)
            ReplyToAddresses := [JSVal.str (getAlertFrom env)] }], some r) := by
  simp only [sendAlert]
  rw [createSendEmailParams_all_truthy _ (getAlertTo_truthy env) (getAlertSubject_truthy env)
    (getAlertFrom_truthy env) (getAlertFrom_truthy env) (by simp [JSVal.truthy, hr])]
  rfl

/-! Claim theorems. -/

/-- C1: the claim says that on a fetched body parsing to a record whose
dataAsOf is not stale, currencyRatesLoadSuccess ends the invocation through
the completion callback with the found-not-to-be-stale message. The code
instead evaluates the unbound identifier getStaleOlderThanDays and raises an
uncaught ReferenceError on every truthy parse outcome, so on this fresh
record the trace ends in a thrown exception and contains no completion
event. -/
theorem currencyRatesLoadSuccess_fresh_throws :
    currencyRatesLoadSuccess
        (some (JsonVal.jobj [("dataAsOf", JsonVal.jstr "2026-10-11T00:00:00Z")])) true defaultEnv
      = ([Event.thrown "ReferenceError: getStaleOlderThanDays is not defined"], none)
  ∧ (currencyRatesLoadSuccess
        (some (JsonVal.jobj [("dataAsOf", JsonVal.jstr "2026-10-11T00:00:00Z")])) true
        defaultEnv).1.filter Event.isDone = [] :=
  ⟨rfl, rfl⟩

/-- C2: getFileStaleResult marks the file stale exactly when the computed
day difference exceeds the threshold, is not stale when the difference
equals the threshold, and in both branches returns a populated result
message next to the stale flag. -/
theorem getFileStaleResult_verdict (dataAsOf : String) (dataAsOfMs nowMs : ℤ) (T : ℚ) :
    ((getFileStaleResult dataAsOf dataAsOfMs nowMs T).stale = true
        ↔ ((daysDifference dataAsOfMs nowMs : ℚ) > T))
  ∧ (((daysDifference dataAsOfMs nowMs : ℚ) = T)
        → (getFileStaleResult dataAsOf dataAsOfMs nowMs T).stale = false)
  ∧ ((getFileStaleResult dataAsOf dataAsOfMs nowMs T).result.map
        (fun r => r.message.isEmpty) = some false) := by
  have hs : (getFileStaleResult dataAsOf dataAsOfMs nowMs T).stale
      = decide ((daysDifference dataAsOfMs nowMs : ℚ) > T) := by
    unfold getFileStaleResult
    by_cases h : ((daysDifference dataAsOfMs nowMs : ℚ) > T) <;> simp [h]
  refine ⟨?_, ?_, ?_⟩
  · rw [hs]
    exact decide_eq_true_iff
  · intro he
    rw [hs]
    apply decide_eq_false
    rw [he]
    exact lt_irrefl T
  · unfold getFileStaleResult
    by_cases h : ((daysDifference dataAsOfMs nowMs : ℚ) > T)
    · simp [h, createResult]
      apply append_isEmpty_false
      rw [String.length_append, String.length_append]
      have hA : 0 < ("The Prebid currency rates conversion data has a stale timestamp of " : String).length := by
        decide
      omega
    · simp [h, createResult]
      apply append_isEmpty_false
      rw [String.length_append]
      have hA : 0 < ("The Prebid currency rates conversion data has a timestamp of " : String).length := by
        decide
      omega

/-- C2 witness: at a one-day-old timestamp with threshold one day, the day
difference equals the threshold and the verdict is not stale. -/
theorem getFileStaleResult_verdict_witness :
    (getFileStaleResult "2026-10-11" 0 86400000 1).stale = false := by
  apply (getFileStaleResult_verdict "2026-10-11" 0 86400000 1).2.1
  rw [daysDifference_eq_ediv]
  norm_num

/-- C3: the claim says the completion callback fires exactly once on every
reachable path apart from the parse-failure and early-validation paths. In
the code every parse-success path (stale or fresh) instead dies with the
uncaught ReferenceError from the unqualified getStaleOlderThanDays call, so
a whole invocation whose fetch succeeds and whose body parses to a truthy
record produces no completion event at all. -/
theorem invocationTrace_parse_success_no_done :
    invocationTrace "scheduled-event" defaultEnv true
        (FetchOutcome.ok (some (JsonVal.jobj [("dataAsOf", JsonVal.jstr "2020-01-01T00:00:00Z")])))
        none
      = [Event.log "Event: scheduled-event",
         Event.s3GetObject { Bucket := "currency.prebid.org", Key := "latest.json" },
         Event.thrown "ReferenceError: getStaleOlderThanDays is not defined"]
  ∧ (invocationTrace "scheduled-event" defaultEnv true
        (FetchOutcome.ok (some (JsonVal.jobj [("dataAsOf", JsonVal.jstr "2020-01-01T00:00:00Z")])))
        none).filter Event.isDone = [] :=
  ⟨rfl, rfl⟩

/-- C4 counterexample: at a millisecond difference of minus one and a half
days the code rounds the quotient to minus one (Math.round ties go toward
positive infinity), while rounding half away from zero as the claim states
would give minus two. -/
theorem daysDifference_not_half_away_from_zero :
    ¬ (daysDifference 129600000 0
        = roundHalfAwayFromZero (((0 : ℚ) - (129600000 : ℚ)) / (1000 * 60 * 60 * 24))) := by
  have h1 : daysDifference 129600000 0 = -1 := by
    rw [daysDifference_eq_ediv]
    decide
  have h2 : roundHalfAwayFromZero (((0 : ℚ) - (129600000 : ℚ)) / (1000 * 60 * 60 * 24)) = -2 := by
    have hx : (((0 : ℚ) - (129600000 : ℚ)) / (1000 * 60 * 60 * 24)) = -(3 / 2 : ℚ) := by norm_num
    rw [roundHalfAwayFromZero, hx, if_neg (by norm_num), neg_neg, round_eq]
    norm_num
  rw [h1, h2]
  decide

/-- C4 amended: daysDifference equals the millisecond difference divided by
one day in milliseconds and rounded to the nearest whole day, with ties
rounded toward positive infinity (the Math.round rule) rather than away
from zero; the result is within half a day of the exact quotient. -/
theorem daysDifference_is_round_half_up (first second : ℤ) :
    daysDifference first second = round (((second : ℚ) - (first : ℚ)) / (1000 * 60 * 60 * 24))
  ∧ |(((second : ℚ) - (first : ℚ)) / (1000 * 60 * 60 * 24)) - (daysDifference first second : ℚ)|
      ≤ 1 / 2 := by
  have h : daysDifference first second
      = round (((second : ℚ) - (first : ℚ)) / (1000 * 60 * 60 * 24)) := by
    rw [round_eq]
    rfl
  refine ⟨h, ?_⟩
  rw [h]
  exact abs_sub_round _

/-- C5 counterexample: at a tie the two orientations of daysDifference do
not negate each other: a difference of one and a half days gives two one
way and one the other way. -/
theorem daysDifference_antisymmetry_counterexample :
    ¬ (daysDifference 0 129600000 = - daysDifference 129600000 0) := by
  rw [daysDifference_eq_ediv, daysDifference_eq_ediv]
  decide

/-- C5 amended: daysDifference is antisymmetric for every pair of dates
whose millisecond difference is not an exact half-day tie, that is, not
congruent to 43200000 modulo 86400000. -/
theorem daysDifference_antisymmetry_no_tie (a b : ℤ)
    (h : (b - a) % 86400000 ≠ 43200000) :
    daysDifference a b = - daysDifference b a := by
  rw [daysDifference_eq_ediv, daysDifference_eq_ediv]
  omega

/-- C5 witness: a whole-day difference is no tie, and there the two
orientations negate each other. -/
theorem daysDifference_antisymmetry_no_tie_witness :
    ((86400000 : ℤ) - 0) % 86400000 ≠ 43200000
  ∧ daysDifference 0 86400000 = - daysDifference 86400000 0 :=
  ⟨by decide, daysDifference_antisymmetry_no_tie 0 86400000 (by decide)⟩

/-- C6: the claim says getAlertSubject returns the set ALERT_SUBJECT string
and falls back to the default only when the variable is unset. The code
instead pipes the variable through parseFloat, so a set non-numeric subject
is dropped in favour of the default, and a numeric subject comes back as a
number rather than the set string. -/
theorem getAlertSubject_drops_set_value :
    getAlertSubject { defaultEnv with ALERT_SUBJECT := some "Prebid currency alert" }
      = JSVal.str "ALERT: Prebid Currency Rates File Monitor"
  ∧ getAlertSubject { defaultEnv with ALERT_SUBJECT := some "3" }
      = JSVal.num (JSNumber.finite 3)
  ∧ ("Prebid currency alert" : String) ≠ "ALERT: Prebid Currency Rates File Monitor" :=
  ⟨rfl, rfl, by decide⟩

/-- C7: the claim says the mail request destination is an array containing
the recipient. The code builds ReplyToAddresses as an array and puts the
UTF-8 charsets in place, and it does short-circuit with a log on the first
missing field, but it assigns ToAddresses the recipient string itself, not
an array holding it (contradicting the returns annotation of the function,
which declares an array of strings). -/
theorem createSendEmailParams_toAddresses_unwrapped :
    (∃ p : SendEmailParams,
      createSendEmailParams
          { alertTo := JSVal.str "alerts@prebid.org"
            alertSubject := JSVal.str "ALERT: Prebid Currency Rates File Monitor"
            alertFrom := JSVal.str "alerts@prebid.org"
            alertReplyTo := JSVal.str "alerts@prebid.org"
            message := JSVal.str "The currency file is stale." }
        = (some p, [])
      ∧ p.Destination.ToAddresses = JSVal.str "alerts@prebid.org"
      ∧ p.Destination.ToAddresses ≠ JSVal.arr [JSVal.str "alerts@prebid.org"]
      ∧ p.ReplyToAddresses = [JSVal.str "alerts@prebid.org"]
      ∧ p.Message.Subject.Charset = "UTF-8"
      ∧ p.Message.Body.Text.Charset = "UTF-8")
  ∧ createSendEmailParams
        { alertTo := JSVal.str ""
          alertSubject := JSVal.str "ALERT: Prebid Currency Rates File Monitor"
          alertFrom := JSVal.str "alerts@prebid.org"
          alertReplyTo := JSVal.str "alerts@prebid.org"
          message := JSVal.str "The currency file is stale." }
      = (none, [Event.logError "Error: missing required argument for createSendEmailParams:alertTo"]) := by
  refine ⟨⟨{ Destination := { ToAddresses := JSVal.str "alerts@prebid.org" }
             Message := { Subject := { Data := JSVal.str "ALERT: Prebid Currency Rates File Monitor"
                                       Charset := "UTF-8" }
                          Body := { Text := { Data := JSVal.str "The currency file is stale."
                                              Charset := "UTF-8" } } }
             Source := JSVal.str "alerts@prebid.org"
             ReplyToAddresses := [JSVal.str "alerts@prebid.org"] },
           rfl, rfl, ?_, rfl, rfl, rfl⟩, rfl⟩
  intro hcontra
  cases hcontra

/-- C8: for every fetch error and every environment, currencyRatesLoadError
logs the error, builds the result message as the fixed text followed by the
error message, and dispatches exactly one alert send whose body text is that
message, leaving it pending as the payload of the later completion. -/
theorem currencyRatesLoadError_alert (msg stack : String) (env : Env) :
    ∃ p : SendEmailParams,
      currencyRatesLoadError { message := msg, stack := stack } true env
        = ([Event.logError msg, Event.sendEmail p],
           some (createResult ("Error reading currency rates file from S3: " ++ msg)))
      ∧ p.Message.Body.Text.Data
          = JSVal.str ("Error reading currency rates file from S3: " ++ msg) := by
  refine ⟨{ Destination := { ToAddresses := JSVal.str (getAlertTo env) }
            Message := { Subject := { Data := getAlertSubject env, Charset := "UTF-8" }
                         Body := { Text :=
                            { Data := JSVal.str ("Error reading currency rates file from S3: " ++ msg)
                              Charset := "UTF-8" } } }
            Source := JSVal.str (getAlertFrom env)
            ReplyToAddresses := [JSVal.str (getAlertFrom env)] }, ?_, rfl⟩
  simp only [currencyRatesLoadError, createResult]
  rw [sendAlert_dispatch _ _ (append_isEmpty_false _ _ (by decide))]

/-- C9: for every result and every outcome of the mail send, the send
callback emits exactly one completion event, carrying a null error and the
original result unchanged, and that completion is the last action; a send
error contributes only a preceding error log. -/
theorem sendEmailCallback_completes_once (r : Result) (err : Option JsError) :
    (sendEmailCallback r err).filter Event.isDone = [Event.done none r]
  ∧ (sendEmailCallback r err).getLast? = some (Event.done none r) := by
  cases err <;> exact ⟨rfl, rfl⟩

/-- C10: a fetched body that is valid JSON with a falsy top-level value makes
currencyRatesLoadSuccess return silently: no alert, no completion, no log of
any kind; the malformed-JSON outcome instead logs one error before
terminating, likewise without alert or completion. -/
theorem currencyRatesLoadSuccess_falsy_silent (v : JsonVal) (context : Bool) (env : Env)
    (h : v.truthy = false) :
    currencyRatesLoadSuccess (some v) context env = ([], none)
  ∧ currencyRatesLoadSuccess none context env
      = ([Event.logError "Error: malformed json:"], none) := by
  constructor
  · simp [currencyRatesLoadSuccess, parseJson, h]
  · rfl

/-- C10 witness: a body whose JSON value is null takes the silent path. -/
theorem currencyRatesLoadSuccess_falsy_silent_witness :
    currencyRatesLoadSuccess (some JsonVal.jnull) true defaultEnv = ([], none)
  ∧ currencyRatesLoadSuccess none true defaultEnv
      = ([Event.logError "Error: malformed json:"], none) :=
  currencyRatesLoadSuccess_falsy_silent JsonVal.jnull true defaultEnv rfl
